import Mathlib

/-
Verification of the osf_sync ingestion engine (fred_preprint_bot).

Shallow embedding of:
  - src/osf_sync/upsert.py   (UPSERT_SQL, _row_from_osf, upsert_batch)
  - src/osf_sync/db.py       (schema: preprints columns incl. tei_* migrations,
                              sync_state table; init_db)
  - src/osf_sync/tasks.py    (_get_cursor, _set_cursor, sync_from_osf,
                              sync_from_date_to_now, download_single_pdf,
                              grobid_single)
  - src/osf_sync/iter_preprints.py (_fetch_page retry loop,
                              iter_preprints_batches batching)
  - src/osf_sync/pdf.py      (ensure_pdf_available_or_delete, delete_preprint,
                              mark_downloaded)
  - src/osf_sync/grobid.py   (process_pdf_to_tei signature, mark_tei)

Timestamps (SQL timestamptz) are modelled as Nat, nullable columns as Option.
SQL three-valued logic is modelled by the helpers below: a comparison with a
NULL operand is not TRUE, GREATEST ignores NULLs, COALESCE takes the first
non-NULL argument, IS DISTINCT FROM is null-safe inequality.
-/

namespace OsfSync

/-- SQL `a > b` for nullable timestamps: TRUE only when both operands are
non-NULL and the comparison holds (NULL propagates, and WHERE treats NULL
as not-TRUE). -/
def sqlGtNat : Option Nat → Option Nat → Bool
  | some a, some b => a > b
  | _, _ => false

/-- SQL `a > b` for nullable integers (the `version` column is nullable). -/
def sqlGtInt : Option Int → Option Int → Bool
  | some a, some b => a > b
  | _, _ => false

/-- Postgres `GREATEST(a, b)`: ignores NULL arguments, NULL only when both
are NULL. -/
def sqlGreatestNat : Option Nat → Option Nat → Option Nat
  | some a, some b => some (max a b)
  | some a, none => some a
  | none, some b => some b
  | none, none => none

/-- Postgres `GREATEST(a, b)` on nullable integers. -/
def sqlGreatestInt : Option Int → Option Int → Option Int
  | some a, some b => some (max a b)
  | some a, none => some a
  | none, some b => some b
  | none, none => none

/-- Postgres `COALESCE(a, b)`. -/
def sqlCoalesce {α : Type} : Option α → Option α → Option α
  | some a, _ => some a
  | none, b => b

/-- Postgres `a IS DISTINCT FROM b`: null-safe inequality (NULL vs NULL is
not distinct, NULL vs non-NULL is distinct). -/
def isDistinctFrom {α : Type} [DecidableEq α] (a b : Option α) : Bool :=
  a ≠ b

/-- A row of the `preprints` table (db.py DDL plus the ALTER TABLE
migrations that add `primary_file_id`, the `pdf_*` download lane and the
`tei_*` extraction lane).  jsonb payloads are kept as opaque strings. -/
structure Row where
  osf_id : String
  type : Option String
  title : Option String
  description : Option String
  doi : Option String
  date_created : Option Nat
  date_modified : Option Nat
  date_published : Option Nat
  is_published : Option Bool
  version : Option Int
  is_latest_version : Option Bool
  reviews_state : Option String
  tags : List String
  subjects : Option String
  license_record : Option String
  provider_id : Option String
  primary_file_id : Option String
  links : Option String
  raw : Option String
  pdf_downloaded : Option Bool
  pdf_downloaded_at : Option Nat
  pdf_path : Option String
  tei_generated : Option Bool
  tei_generated_at : Option Nat
  tei_path : Option String
  updated_at : Nat
  deriving Repr, DecidableEq

/-- An incoming record as produced by `_row_from_osf` (upsert.py): core
fields only; the download-tracking parameters are passed as NULL so the
INSERT defaults apply. -/
structure Incoming where
  osf_id : String
  type : Option String
  title : Option String
  description : Option String
  doi : Option String
  date_created : Option Nat
  date_modified : Option Nat
  date_published : Option Nat
  is_published : Option Bool
  version : Option Int
  is_latest_version : Option Bool
  reviews_state : Option String
  tags : List String
  subjects : Option String
  license_record : Option String
  provider_id : Option String
  primary_file_id : Option String
  links : Option String
  raw : Option String
  deriving Repr, DecidableEq

/-- The WHERE clause of `UPSERT_SQL` (upsert.py lines 67-70): the update is
applied when `(preprints.date_modified IS NULL OR EXCLUDED.date_modified >
preprints.date_modified) OR (EXCLUDED.version > preprints.version) OR
(preprints.primary_file_id IS DISTINCT FROM EXCLUDED.primary_file_id)`. -/
def upsertApplies (stored : Row) (inc : Incoming) : Bool :=
  (stored.date_modified.isNone || sqlGtNat inc.date_modified stored.date_modified)
    || sqlGtInt inc.version stored.version
    || isDistinctFrom stored.primary_file_id inc.primary_file_id

/-- The invalidation trigger of `UPSERT_SQL` (upsert.py lines 47-65): the
shared CASE condition `(preprints.primary_file_id IS DISTINCT FROM
EXCLUDED.primary_file_id) OR (EXCLUDED.version > preprints.version)`. -/
def invalidates (stored : Row) (inc : Incoming) : Bool :=
  isDistinctFrom stored.primary_file_id inc.primary_file_id
    || sqlGtInt inc.version stored.version

/-- The DO UPDATE SET branch of `UPSERT_SQL` (upsert.py lines 26-66),
evaluated at SQL time `now`.  Note the SET list does not mention the
`tei_*` columns, so they are carried over from the stored row. -/
def applyUpdate (now : Nat) (stored : Row) (inc : Incoming) : Row :=
  { osf_id := stored.osf_id
    type := inc.type
    title := inc.title
    description := inc.description
    doi := inc.doi
    date_created := inc.date_created
    date_modified := sqlGreatestNat stored.date_modified inc.date_modified
    date_published := sqlCoalesce inc.date_published stored.date_published
    is_published := inc.is_published
    version := sqlGreatestInt stored.version inc.version
    is_latest_version := inc.is_latest_version
    reviews_state := inc.reviews_state
    tags := inc.tags
    subjects := inc.subjects
    license_record := inc.license_record
    provider_id := inc.provider_id
    primary_file_id := inc.primary_file_id
    links := inc.links
    raw := inc.raw
    pdf_downloaded :=
      if invalidates stored inc then some false else stored.pdf_downloaded
    pdf_downloaded_at :=
      if invalidates stored inc then none else stored.pdf_downloaded_at
    pdf_path :=
      if invalidates stored inc then none else stored.pdf_path
    tei_generated := stored.tei_generated
    tei_generated_at := stored.tei_generated_at
    tei_path := stored.tei_path
    updated_at := now }

/-- The INSERT branch of `UPSERT_SQL` (upsert.py lines 7-25): download
fields come in as NULL so `COALESCE(:pdf_downloaded, false)` yields false
and the timestamps/paths are NULL; the `tei_*` columns take their schema
default (`boolean DEFAULT false`, NULL timestamps/paths). -/
def insertRow (now : Nat) (inc : Incoming) : Row :=
  { osf_id := inc.osf_id
    type := inc.type
    title := inc.title
    description := inc.description
    doi := inc.doi
    date_created := inc.date_created
    date_modified := inc.date_modified
    date_published := inc.date_published
    is_published := inc.is_published
    version := inc.version
    is_latest_version := inc.is_latest_version
    reviews_state := inc.reviews_state
    tags := inc.tags
    subjects := inc.subjects
    license_record := inc.license_record
    provider_id := inc.provider_id
    primary_file_id := inc.primary_file_id
    links := inc.links
    raw := inc.raw
    pdf_downloaded := some false
    pdf_downloaded_at := none
    pdf_path := none
    tei_generated := some false
    tei_generated_at := none
    tei_path := none
    updated_at := now }

/-- One execution of `UPSERT_SQL` against the `preprints` table (keyed by
`osf_id`): ON CONFLICT updates the existing row when `upsertApplies`,
otherwise it is a no-op; without a conflict the row is inserted. -/
def upsertOne (now : Nat) (inc : Incoming) (store : List Row) : List Row :=
  if store.any (fun r => r.osf_id == inc.osf_id) then
    store.map (fun r =>
      if r.osf_id == inc.osf_id then
        if upsertApplies r inc then applyUpdate now r inc else r
      else r)
  else
    store ++ [insertRow now inc]

/-- The stored row with the store-managed `updated_at` bookkeeping field
erased, for stating "unchanged except updated_at". -/
def core (r : Row) : Row := { r with updated_at := 0 }

/-- The incoming record carrying exactly the stored row's core field
values: replaying "the identical record" (upsert.py `_row_from_osf` output
that produced / matches the stored row). -/
def toIncoming (r : Row) : Incoming :=
  { osf_id := r.osf_id
    type := r.type
    title := r.title
    description := r.description
    doi := r.doi
    date_created := r.date_created
    date_modified := r.date_modified
    date_published := r.date_published
    is_published := r.is_published
    version := r.version
    is_latest_version := r.is_latest_version
    reviews_state := r.reviews_state
    tags := r.tags
    subjects := r.subjects
    license_record := r.license_record
    provider_id := r.provider_id
    primary_file_id := r.primary_file_id
    links := r.links
    raw := r.raw }

/-- A row of the `sync_state` table (db.py DDL): one cursor per logical
source key. -/
structure SyncRow where
  source_key : String
  last_seen_published : Option Nat
  last_run_at : Nat
  deriving Repr, DecidableEq

/-- The whole database state: the `preprints` table and the `sync_state`
table. -/
structure DB where
  preprints : List Row
  sync_state : List SyncRow
  deriving Repr, DecidableEq

/-- `_get_cursor` (tasks.py lines 31-39): the `last_seen_published` of the
row for `key`, or NULL when the row is absent.  Both cases map to `none`
here, matching the caller's `None` check. -/
def getCursor (key : String) (st : List SyncRow) : Option Nat :=
  match st.find? (fun r => r.source_key == key) with
  | some r => r.last_seen_published
  | none => none

/-- `_set_cursor` (tasks.py lines 42-56): INSERT the cursor row, ON
CONFLICT keep `GREATEST(sync_state.last_seen_published,
EXCLUDED.last_seen_published)` and stamp `last_run_at = now()`. -/
def setCursor (now : Nat) (key : String) (v : Nat) (st : List SyncRow) : List SyncRow :=
  if st.any (fun r => r.source_key == key) then
    st.map (fun r =>
      if r.source_key == key then
        { r with
          last_seen_published := sqlGreatestNat r.last_seen_published (some v)
          last_run_at := now }
      else r)
  else
    st ++ [⟨key, some v, now⟩]

/-- `init_db` (db.py lines 63-67): executes only `CREATE TABLE IF NOT
EXISTS`, `CREATE INDEX IF NOT EXISTS` and `ALTER TABLE ... ADD COLUMN IF
NOT EXISTS` statements; at the row level (all columns already present in
`Row`) it changes no stored data. -/
def initDb (db : DB) : DB := db

/-- `upsert_batch` (upsert.py lines 109-116): one transaction executing
`UPSERT_SQL` for each incoming record in order; touches only the
`preprints` table. -/
def upsertBatch (now : Nat) (objs : List Incoming) (db : DB) : DB :=
  { db with preprints := objs.foldl (fun s i => upsertOne now i s) db.preprints }

/-- The cursor source key built in `sync_from_osf` (tasks.py line 119):
`"osf:" + subject` when a subject filter is given, else `SOURCE_KEY_ALL =
"osf:all"`. -/
def sourceKey : Option String → String
  | some s => "osf:" ++ s
  | none => "osf:all"

/-- The running-maximum fold of `sync_from_osf` (tasks.py lines 140-143):
`if pub and (max_published_seen is None or pub > max_published_seen)`,
where `pub` is the record's parsed `date_published` (None when absent or
unparsable; a parsed datetime is always truthy). -/
def maxPublished (pubs : List (Option Nat)) : Option Nat :=
  pubs.foldl (fun acc pub =>
    match pub with
    | some p =>
        match acc with
        | none => some p
        | some m => if p > m then some p else acc
    | none => acc) none

/-- `sync_from_osf` (tasks.py lines 100-156), with the already-fetched
batches as input (each record contributing its parsed `date_published` and
its upsert payload): init_db, upsert every batch while tracking the
maximum published date seen, then `_set_cursor` exactly when some
published date was observed. -/
def sync_from_osf (now : Nat) (subject : Option String)
    (batches : List (List Incoming)) (db : DB) : DB :=
  let db1 := initDb db
  let db2 := batches.foldl (fun d b => upsertBatch now b d) db1
  match maxPublished ((batches.flatten).map (fun o => o.date_published)) with
  | some m => { db2 with sync_state := setCursor now (sourceKey subject) m db2.sync_state }
  | none => db2

/-- `sync_from_date_to_now` (tasks.py lines 158-176): init_db, then upsert
every batch of the ad-hoc window; no `_get_cursor`/`_set_cursor` call
appears in its body. -/
def sync_from_date_to_now (now : Nat) (_start_date : String) (_subject : Option String)
    (batches : List (List Incoming)) (db : DB) : DB :=
  let db1 := initDb db
  batches.foldl (fun d b => upsertBatch now b d) db1

/-- The page-consuming loop of `iter_preprints_batches` (iter_preprints.py
lines 95-111): per fetched page, extend the accumulator, yield
`batch[:batch_size]` once when the accumulator has reached `batch_size`
(keeping `batch[batch_size:]`), and after the last page flush the
remaining accumulator as one batch if non-empty. -/
def batchLoop {α : Type} (bs : Nat) : List (List α) → List α → List (List α)
  | [], acc => if acc.isEmpty then [] else [acc]
  | p :: rest, acc =>
      let acc2 := acc ++ p
      if bs ≤ acc2.length then
        acc2.take bs :: batchLoop bs rest (acc2.drop bs)
      else
        batchLoop bs rest acc2

/-- `iter_preprints_batches` (iter_preprints.py lines 73-111), with the
server's successive pages as input (the `links.next` chain), starting from
an empty accumulator. -/
def iter_preprints_batches {α : Type} (bs : Nat) (pages : List (List α)) : List (List α) :=
  batchLoop bs pages []

/-- What one GET attempt inside `_fetch_page` (iter_preprints.py lines
52-71) can do: return parsed JSON, raise a timeout/connection error
(caught by the `except` clause), or raise an HTTP status error from
`raise_for_status` after the session adapter's bounded transport retries
(not caught by the `except` clause). -/
inductive AttemptOutcome where
  | ok (page : Nat)
  | transient
  | httpError
  deriving Repr, DecidableEq

/-- How a `_fetch_page` call terminates when it terminates: with the page
JSON, or by propagating the uncaught `raise_for_status` error. -/
inductive FetchResult where
  | success (page : Nat)
  | httpFailure
  deriving Repr, DecidableEq

/-- The `while True` retry loop of `_fetch_page` (iter_preprints.py lines
57-71), run on an attempt-outcome stream with step-count fuel: `none`
means the loop is still running after `fuel` attempts (there is no
attempt bound in the source; only the fuel of this embedding stops it).
On a transient error it sleeps `min(backoff, 60)` seconds (recorded in the
returned list) and doubles `backoff`; `backoff` starts at 2. -/
def fetchPageLoop (attempts : Nat → AttemptOutcome) :
    Nat → Nat → Nat → Option (FetchResult × List Nat)
  | 0, _, _ => none
  | fuel + 1, i, backoff =>
      match attempts i with
      | .ok p => some (.success p, [])
      | .httpError => some (.httpFailure, [])
      | .transient =>
          match fetchPageLoop attempts fuel (i + 1) (backoff * 2) with
          | some (r, sleeps) => some (r, min backoff 60 :: sleeps)
          | none => none

/-- `_fetch_page` entered at the first attempt with its initial
`backoff = 2.0`. -/
def fetchPage (attempts : Nat → AttemptOutcome) (fuel : Nat) :
    Option (FetchResult × List Nat) :=
  fetchPageLoop attempts fuel 0 2

/-- The sleep sequence produced by `n` consecutive transient failures
starting from backoff `b`: `min(b, 60), min(2b, 60), ...`. -/
def sleepsFrom (b : Nat) : Nat → List Nat
  | 0 => []
  | n + 1 => min b 60 :: sleepsFrom (b * 2) n

/-- Python truthiness of an optional string: `None` and `""` are falsy
(`if not url:` in pdf.py line 109). -/
def pyFalsyStr : Option String → Bool
  | none => true
  | some s => s.isEmpty

/-- Python truthiness of a nullable boolean column (`if not
row["pdf_downloaded"]`, `if row.get("tei_generated")` in tasks.py):
truthy exactly when the value is `True`. -/
def pyTruthyBool : Option Bool → Bool
  | some b => b
  | none => false

/-- `ACCEPT_PDF` (pdf.py line 13). -/
def ACCEPT_PDF : List String := ["application/pdf"]

/-- `ACCEPT_DOCX` (pdf.py line 14). -/
def ACCEPT_DOCX : List String :=
  ["application/vnd.openxmlformats-officedocument.wordprocessingml.document"]

/-- `_looks_pdf` (pdf.py lines 47-48): `bool(name and
name.lower().endswith(".pdf"))`. -/
def looksPdf : Option String → Bool
  | none => false
  | some n => !n.isEmpty && n.toLower.endsWith ".pdf"

/-- `_looks_docx` (pdf.py lines 50-51). -/
def looksDocx : Option String → Bool
  | none => false
  | some n => !n.isEmpty && n.toLower.endsWith ".docx"

/-- `is_pdf` in `ensure_pdf_available_or_delete` (pdf.py line 116):
`(ctype in ACCEPT_PDF) or (ctype is None and _looks_pdf(name))`. -/
def isPdfType (ctype name : Option String) : Bool :=
  (match ctype with
    | some c => ACCEPT_PDF.contains c
    | none => false)
    || (ctype.isNone && looksPdf name)

/-- `is_docx` in `ensure_pdf_available_or_delete` (pdf.py line 117). -/
def isDocxType (ctype name : Option String) : Bool :=
  (match ctype with
    | some c => ACCEPT_DOCX.contains c
    | none => false)
    || (ctype.isNone && looksDocx name)

/-- Database plus filesystem state seen by the download/extraction
pipeline: the `preprints` table, the set of files on disk (paths), and the
set of directories created. -/
structure FsDb where
  preprints : List Row
  files : List String
  dirs : List String
  deriving Repr, DecidableEq

/-- Writing a file at a path (the temp-write + rename of `_download_to`
makes only the final path ever visible). -/
def addFile (p : String) (fs : List String) : List String :=
  if fs.contains p then fs else fs ++ [p]

/-- `Path.unlink`. -/
def removeFile (p : String) (fs : List String) : List String :=
  fs.filter (fun q => !(q == p))

/-- `mkdir(parents=True, exist_ok=True)` in `_safe_dir` (pdf.py lines
16-19). -/
def addDir (p : String) (ds : List String) : List String :=
  if ds.contains p then ds else ds ++ [p]

/-- `delete_preprint` (pdf.py lines 91-93): `DELETE FROM preprints WHERE
osf_id = :id`. -/
def deletePreprint (id : String) (rows : List Row) : List Row :=
  rows.filter (fun r => !(r.osf_id == id))

/-- The result kind of `ensure_pdf_available_or_delete` (pdf.py line
106): `"pdf"`, `"docx->pdf"` or `"deleted"`. -/
inductive EnsureKind where
  | pdf
  | docxToPdf
  | deleted
  deriving Repr, DecidableEq

/-- `ensure_pdf_available_or_delete` (pdf.py lines 95-143).  The network
resolution `resolve_primary_file_info_from_raw(raw)` is passed in as its
result `(url, ctype, name)`, and the external converter's success as
`convOk`.  Branch order and effects follow the source: falsy url deletes
the row at once; otherwise the per-record folder is created, then the
PDF / DOCX-convert / delete policy runs. -/
def ensure_pdf_available_or_delete (osf_id provider_id : String)
    (url ctype name : Option String) (convOk : Bool) (dest_root : String)
    (st : FsDb) : (EnsureKind × Option String) × FsDb :=
  if pyFalsyStr url then
    ((.deleted, none), { st with preprints := deletePreprint osf_id st.preprints })
  else
    let folder := dest_root ++ "/" ++ provider_id ++ "/" ++ osf_id
    let st1 := { st with dirs := addDir folder st.dirs }
    let pdfPath := folder ++ "/file.pdf"
    if isPdfType ctype name then
      ((.pdf, some pdfPath), { st1 with files := addFile pdfPath st1.files })
    else if isDocxType ctype name then
      let docxPath := folder ++ "/file.docx"
      let st2 := { st1 with files := addFile docxPath st1.files }
      let st3 :=
        if convOk then { st2 with files := addFile pdfPath st2.files } else st2
      let st4 := { st3 with files := removeFile docxPath st3.files }
      if convOk then
        ((.docxToPdf, some pdfPath), st4)
      else
        let st5 := { st4 with preprints := deletePreprint osf_id st4.preprints }
        ((.deleted, none), { st5 with files := removeFile pdfPath st5.files })
    else
      ((.deleted, none), { st1 with preprints := deletePreprint osf_id st1.preprints })

/-- `mark_downloaded` (pdf.py lines 78-89). -/
def markDownloaded (now : Nat) (id : String) (path : Option String) (ok : Bool)
    (rows : List Row) : List Row :=
  rows.map (fun r =>
    if r.osf_id == id then
      { r with
        pdf_downloaded := some ok
        pdf_downloaded_at := if ok then some now else r.pdf_downloaded_at
        pdf_path := if ok then path else r.pdf_path
        updated_at := now }
    else r)

/-- `mark_tei` (grobid.py lines 58-69). -/
def markTei (now : Nat) (id : String) (ok : Bool) (teiPath : Option String)
    (rows : List Row) : List Row :=
  rows.map (fun r =>
    if r.osf_id == id then
      { r with
        tei_generated := some ok
        tei_generated_at := if ok then some now else r.tei_generated_at
        tei_path := if ok then teiPath else r.tei_path
        updated_at := now }
    else r)

/-- `PDF_DEST_ROOT` / `DATA_ROOT` default (tasks.py line 21, grobid.py
line 13). -/
def PDF_DEST_ROOT : String := "/data/preprints"

/-- `_pdf_path` (grobid.py lines 15-32): provider-scoped path if that file
exists; otherwise the legacy flat path, relocated into the provider-scoped
layout when found. -/
def pdfPathLookup (provider_id osf_id : String) (st : FsDb) :
    Option String × FsDb :=
  let p := PDF_DEST_ROOT ++ "/" ++ provider_id ++ "/" ++ osf_id ++ "/file.pdf"
  if st.files.contains p then (some p, st)
  else
    let pOld := PDF_DEST_ROOT ++ "/" ++ osf_id ++ "/file.pdf"
    if st.files.contains pOld then
      let newDir := PDF_DEST_ROOT ++ "/" ++ provider_id ++ "/" ++ osf_id
      let st1 := { st with dirs := addDir newDir st.dirs }
      (some p, { st1 with files := addFile p (removeFile pOld st1.files) })
    else (none, st)

/-- `process_pdf_to_tei` (grobid.py lines 39-56), with the extraction
service's success passed in as `serviceOk`.  Its signature takes TWO
required parameters, `provider_id` and `osf_id`. -/
def process_pdf_to_tei (provider_id osf_id : String) (serviceOk : Bool)
    (st : FsDb) : (Bool × Option String × Option String) × FsDb :=
  match pdfPathLookup provider_id osf_id st with
  | (none, st1) => ((false, none, some "PDF missing"), st1)
  | (some _, st1) =>
      if serviceOk then
        let d := PDF_DEST_ROOT ++ "/" ++ provider_id ++ "/" ++ osf_id
        let teiPath := d ++ "/tei.xml"
        let st2 := { st1 with dirs := addDir d st1.dirs }
        ((true, some teiPath, none), { st2 with files := addFile teiPath st2.files })
      else
        ((false, none, some "network error"), st1)

/-- The module-level names bound by def statements or assignments in
pdf.py (the import target of tasks.py line 17). -/
def pdfModuleDefs : List String :=
  ["ACCEPT_PDF", "ACCEPT_DOCX", "_safe_dir", "_get_file_json_via_href",
   "_get_file_json_via_id", "_file_meta_from_json",
   "resolve_primary_file_info_from_raw", "_looks_pdf", "_looks_docx",
   "_download_to", "_convert_docx_to_pdf", "mark_downloaded",
   "delete_preprint", "ensure_pdf_available_or_delete"]

/-- The names tasks.py line 17 imports from the pdf module:
`from .pdf import mark_downloaded, download_pdf_via_raw`. -/
def tasksPdfImports : List String := ["mark_downloaded", "download_pdf_via_raw"]

/-- The body bound to the name `download_pdf_via_raw` called at tasks.py
line 201: pdf.py (see `pdfModuleDefs`) defines no such name, and no other
source file does, so there is no function body to embed — the name
resolves to nothing. -/
def downloadPdfViaRawDef :
    Option (String → Option String → String → FsDb → ((Bool × Option String) × FsDb)) :=
  none

/-- The SELECT of `download_single_pdf` (tasks.py lines 187-196): the row
with this id that `is_published IS TRUE` and
`COALESCE(pdf_downloaded, false) = false`, LIMIT 1. -/
def selectNeedsDownload (id : String) (rows : List Row) : Option Row :=
  (rows.filter (fun r =>
    r.osf_id == id && r.is_published == some true
      && (r.pdf_downloaded.getD false) == false)).head?

/-- Outcome of the `download_single_pdf` work item. -/
inductive DlOutcome where
  | skipped
  | nameError (n : String)
  | done (ok : Bool) (path : Option String)
  deriving Repr, DecidableEq

/-- `download_single_pdf` (tasks.py lines 180-203): select the row still
needing download (else report skipped), then call
`download_pdf_via_raw(...)` and `mark_downloaded(...)`.  Since the called
name has no definition (`downloadPdfViaRawDef = none`), reaching the call
fails with an unresolved-name error before any download or store
mutation. -/
def download_single_pdf (now : Nat) (osf_id : String) (st : FsDb) :
    DlOutcome × FsDb :=
  match selectNeedsDownload osf_id st.preprints with
  | none => (.skipped, st)
  | some row =>
      match downloadPdfViaRawDef with
      | none => (.nameError "download_pdf_via_raw", st)
      | some f =>
          let ((ok, path), st1) := f row.osf_id row.raw PDF_DEST_ROOT st
          (.done ok path,
            { st1 with preprints := markDownloaded now row.osf_id path ok st1.preprints })

/-- The required parameters of `process_pdf_to_tei` (grobid.py line 39). -/
def processPdfToTeiParams : List String := ["provider_id", "osf_id"]

/-- The positional arguments supplied at the call site tasks.py line 249:
`process_pdf_to_tei(osf_id)`. -/
def grobidSingleCallArgs : List String := ["osf_id"]

/-- Outcome of the `grobid_single` work item. -/
inductive GrobidOutcome where
  | skippedNotFound
  | skippedNotDownloaded
  | skippedAlready
  | typeError
  | done (ok : Bool)
  deriving Repr, DecidableEq

/-- `grobid_single` (tasks.py lines 227-251): select the row (LIMIT 1),
skip when absent / not downloaded / already processed, then call
`process_pdf_to_tei(osf_id)`.  A Python call whose positional-argument
count differs from the callee's required-parameter count raises TypeError
before the callee body runs, so the call branch checks
`grobidSingleCallArgs.length = processPdfToTeiParams.length`; the
well-arity branch (embedding the callee and `mark_tei`) is unreachable
because the site supplies one argument for two parameters. -/
def grobid_single (now : Nat) (osf_id : String) (serviceOk : Bool)
    (st : FsDb) : GrobidOutcome × FsDb :=
  match st.preprints.find? (fun r => r.osf_id == osf_id) with
  | none => (.skippedNotFound, st)
  | some row =>
      if !pyTruthyBool row.pdf_downloaded then (.skippedNotDownloaded, st)
      else if pyTruthyBool row.tei_generated then (.skippedAlready, st)
      else if grobidSingleCallArgs.length == processPdfToTeiParams.length then
        let ((ok, teiPath, _err), st1) :=
          process_pdf_to_tei (row.provider_id.getD "") osf_id serviceOk st
        (.done ok,
          { st1 with
            preprints :=
              markTei now osf_id ok (if ok then teiPath else none) st1.preprints })
      else (.typeError, st)

/-! Concrete sample data used by counterexamples and witnesses. -/

/-- A stored preprint row with both lanes set: downloaded (`pdf_*`) and
extracted (`tei_*`), at version 1 with primary file `f1`. -/
def row0 : Row :=
  { osf_id := "abc12"
    type := some "preprints"
    title := some "T"
    description := none
    doi := none
    date_created := some 1
    date_modified := some 10
    date_published := some 5
    is_published := some true
    version := some 1
    is_latest_version := some true
    reviews_state := none
    tags := []
    subjects := none
    license_record := none
    provider_id := some "osf"
    primary_file_id := some "f1"
    links := none
    raw := some "raw"
    pdf_downloaded := some true
    pdf_downloaded_at := some 20
    pdf_path := some "/data/preprints/osf/abc12/file.pdf"
    tei_generated := some true
    tei_generated_at := some 30
    tei_path := some "/data/preprints/osf/abc12/tei.xml"
    updated_at := 40 }

/-- An incoming record for the same id with version 2 and a different
primary file id (the spec's invalidation-cascade scenario). -/
def inc1 : Incoming :=
  { toIncoming row0 with
    date_modified := some 11
    version := some 2
    primary_file_id := some "f2"
    raw := some "raw2" }

/-- An incoming record for the same id whose version increased but whose
published date is non-null and EARLIER than the stored one. -/
def inc4 : Incoming :=
  { toIncoming row0 with
    date_modified := some 11
    version := some 2
    date_published := some 3 }

/-- A row still needing download: published, download lane unset. -/
def rowNeed : Row :=
  { row0 with
    pdf_downloaded := some false
    pdf_downloaded_at := none
    pdf_path := none
    tei_generated := some false
    tei_generated_at := none
    tei_path := none }

/-- A row with the download lane set and the extraction lane unset. -/
def rowNeedsTei : Row :=
  { row0 with
    tei_generated := some false
    tei_generated_at := none
    tei_path := none }

/-- An attempt stream on which every GET raises a timeout/connection
error. -/
def allTransient : Nat → AttemptOutcome := fun _ => .transient

/-- An attempt stream with two transient failures followed by a
non-transient HTTP status error. -/
def twoTransientThenHttp : Nat → AttemptOutcome :=
  fun i => if i < 2 then .transient else .httpError

/-- Ordering on nullable cursor values: an absent/NULL cursor is below
everything; present cursors compare by timestamp. -/
def cursorLe : Option Nat → Option Nat → Prop
  | none, _ => True
  | some a, some b => a ≤ b
  | some _, none => False

/-! SQL helper lemmas shared by the upsert theorems. -/

theorem sqlGreatestNat_self (a : Option Nat) : sqlGreatestNat a a = a := by
  cases a <;> simp [sqlGreatestNat]

theorem sqlGreatestInt_self (a : Option Int) : sqlGreatestInt a a = a := by
  cases a <;> simp [sqlGreatestInt]

theorem sqlCoalesce_self {α : Type} (a : Option α) : sqlCoalesce a a = a := by
  cases a <;> simp [sqlCoalesce]

theorem sqlGtNat_self (a : Option Nat) : sqlGtNat a a = false := by
  cases a <;> simp [sqlGtNat]

theorem sqlGtInt_self (a : Option Int) : sqlGtInt a a = false := by
  cases a <;> simp [sqlGtInt]

theorem isDistinctFrom_self {α : Type} [DecidableEq α] (a : Option α) :
    isDistinctFrom a a = false := by
  simp [isDistinctFrom]

theorem invalidates_toIncoming (r : Row) : invalidates r (toIncoming r) = false := by
  simp [invalidates, toIncoming, isDistinctFrom_self, sqlGtInt_self]

theorem upsertApplies_toIncoming (r : Row) :
    upsertApplies r (toIncoming r) = r.date_modified.isNone := by
  simp [upsertApplies, toIncoming, sqlGtNat_self, sqlGtInt_self, isDistinctFrom_self]

theorem core_applyUpdate_toIncoming (now : Nat) (r : Row) :
    core (applyUpdate now r (toIncoming r)) = core r := by
  cases r
  simp [core, applyUpdate, toIncoming, invalidates_toIncoming, sqlGreatestNat_self,
    sqlGreatestInt_self, sqlCoalesce_self, invalidates, isDistinctFrom_self, sqlGtInt_self]

/-- C1.
The claim: when the upsert's "newer" trigger is a version increase or a
primary-file-id change, BOTH lanes are reset — all download fields AND all
extraction fields end up false/null.  Refuted: the DO UPDATE SET list of
`UPSERT_SQL` clears only `pdf_downloaded`/`pdf_downloaded_at`/`pdf_path`;
the `tei_*` extraction columns are not in the SET list, so a previously
extracted row keeps `tei_generated = true` and its `tei_path` after an
invalidating upsert. -/
theorem C1_counterexample :
    invalidates row0 inc1 = true ∧
    upsertOne 50 inc1 [row0] = [applyUpdate 50 row0 inc1] ∧
    (applyUpdate 50 row0 inc1).pdf_downloaded = some false ∧
    (applyUpdate 50 row0 inc1).pdf_downloaded_at = none ∧
    (applyUpdate 50 row0 inc1).pdf_path = none ∧
    (applyUpdate 50 row0 inc1).tei_generated = some true ∧
    (applyUpdate 50 row0 inc1).tei_generated_at = some 30 ∧
    (applyUpdate 50 row0 inc1).tei_path = some "/data/preprints/osf/abc12/tei.xml" := by
  decide

/-- C1 (amended).
Whenever the invalidation trigger (file-id change or version increase)
holds, the upsert applies and resets the DOWNLOAD lane to unset
(`pdf_downloaded = false`, timestamp and path NULL), while the EXTRACTION
lane fields are carried over from the stored row unchanged. -/
theorem C1_download_lane_reset (now : Nat) (stored : Row) (inc : Incoming)
    (h : invalidates stored inc = true) :
    upsertApplies stored inc = true ∧
    (applyUpdate now stored inc).pdf_downloaded = some false ∧
    (applyUpdate now stored inc).pdf_downloaded_at = none ∧
    (applyUpdate now stored inc).pdf_path = none ∧
    (applyUpdate now stored inc).tei_generated = stored.tei_generated ∧
    (applyUpdate now stored inc).tei_generated_at = stored.tei_generated_at ∧
    (applyUpdate now stored inc).tei_path = stored.tei_path := by
  have happ : upsertApplies stored inc = true := by
    rcases Bool.or_eq_true _ _ |>.mp (by simpa [invalidates] using h) with h1 | h1 <;>
      simp [upsertApplies, h1]
  exact ⟨happ, by simp [applyUpdate, h], by simp [applyUpdate, h], by simp [applyUpdate, h],
    rfl, rfl, rfl⟩

/-- C1 witness: the amended theorem evaluated at the concrete
invalidation-cascade scenario (`row0` with both lanes set, incoming `inc1`
with version 2 and file `f2`). -/
theorem C1_download_lane_reset_witness :
    invalidates row0 inc1 = true ∧
    (upsertApplies row0 inc1 = true ∧
      (applyUpdate 50 row0 inc1).pdf_downloaded = some false ∧
      (applyUpdate 50 row0 inc1).pdf_downloaded_at = none ∧
      (applyUpdate 50 row0 inc1).pdf_path = none ∧
      (applyUpdate 50 row0 inc1).tei_generated = row0.tei_generated ∧
      (applyUpdate 50 row0 inc1).tei_generated_at = row0.tei_generated_at ∧
      (applyUpdate 50 row0 inc1).tei_path = row0.tei_path) :=
  ⟨by decide, C1_download_lane_reset 50 row0 inc1 (by decide)⟩

/-- C3.
The claim asserts that replaying an identical record is a no-op BECAUSE
the newer-than predicate (modified >, version >, file-id ≠) is false for
an identical record.  Refuted: the WHERE clause's first disjunct is
`preprints.date_modified IS NULL OR ...`, so for a stored row whose
`date_modified` is NULL the predicate is TRUE even though the incoming
record is identical (the update fires — it just writes back identical
values). -/
theorem C3_counterexample :
    upsertApplies { row0 with date_modified := none }
      (toIncoming { row0 with date_modified := none }) = true := by
  decide

/-- C3 (amended).
Replaying the identical record leaves the stored row unchanged except for
the store-managed `updated_at`: when the stored `date_modified` is
non-null the newer-than predicate is false and the replay is a pure no-op;
when it is NULL the predicate is true and the update fires, but every
written value equals the stored one. -/
theorem C3_idempotent (now : Nat) (r : Row) :
    (upsertOne now (toIncoming r) [r]).map core = [core r] ∧
    (∀ m, r.date_modified = some m → upsertApplies r (toIncoming r) = false) ∧
    (r.date_modified = none → upsertApplies r (toIncoming r) = true) := by
  refine ⟨?_, ?_, ?_⟩
  · have hid : (toIncoming r).osf_id = r.osf_id := rfl
    by_cases h : upsertApplies r (toIncoming r) = true
    · simp [upsertOne, hid, h, core_applyUpdate_toIncoming]
    · simp [upsertOne, hid, h]
  · intro m hm
    simp [upsertApplies_toIncoming, hm]
  · intro hm
    simp [upsertApplies_toIncoming, hm]

/-- C3 witness: the amended theorem at the concrete row `row0` (whose
`date_modified` is non-null, so the replay is a strict no-op). -/
theorem C3_idempotent_witness :
    (upsertOne 50 (toIncoming row0) [row0]).map core = [core row0] ∧
    upsertApplies row0 (toIncoming row0) = false :=
  ⟨(C3_idempotent 50 row0).1, (C3_idempotent 50 row0).2.1 10 rfl⟩

/-- C4.
The claim: once the stored `date_published` is non-null it is preserved by
every applied upsert, the incoming value being written only when the
stored one is unset.  Refuted: the SET list computes `date_published =
COALESCE(EXCLUDED.date_published, preprints.date_published)` — the
INCOMING value wins whenever it is non-null.  Here the stored published
date 5 is overwritten by the incoming (earlier) date 3 in an applied
upsert. -/
theorem C4_counterexample :
    row0.date_published = some 5 ∧
    inc4.date_published = some 3 ∧
    upsertApplies row0 inc4 = true ∧
    (applyUpdate 50 row0 inc4).date_published = some 3 := by
  decide

/-- C4 (amended).
In the upsert field merge the incoming published timestamp overwrites the
stored one whenever the incoming value is non-null (even if earlier); the
stored value is kept only when the incoming one is NULL — so a known
publish date is never erased to NULL, but it can change or regress. -/
theorem C4_published_merge (now : Nat) (stored : Row) (inc : Incoming) :
    (inc.date_published = none →
      (applyUpdate now stored inc).date_published = stored.date_published) ∧
    (∀ t, inc.date_published = some t →
      (applyUpdate now stored inc).date_published = some t) := by
  constructor
  · intro h; simp [applyUpdate, h, sqlCoalesce]
  · intro t h; simp [applyUpdate, h, sqlCoalesce]

/-- C4 witness: the amended theorem at the concrete pair (`row0` with
published 5, incoming `inc4` with published 3): the incoming non-null
value is written. -/
theorem C4_published_merge_witness :
    inc4.date_published = some 3 ∧
    (applyUpdate 50 row0 inc4).date_published = some 3 :=
  ⟨by decide, (C4_published_merge 50 row0 inc4).2 3 (by decide)⟩

/-! Cursor-store lemmas (C2, C8). -/

theorem cursorLe_refl (x : Option Nat) : cursorLe x x := by
  cases x <;> simp [cursorLe]

theorem cursorLe_trans {x y z : Option Nat} (h1 : cursorLe x y) (h2 : cursorLe y z) :
    cursorLe x z := by
  cases x <;> cases y <;> cases z <;> simp_all [cursorLe]
  omega

theorem cursorLe_greatest (x : Option Nat) (v : Nat) :
    cursorLe x (sqlGreatestNat x (some v)) := by
  cases x <;> simp [cursorLe, sqlGreatestNat]

theorem setCursor_cons_neg (now : Nat) (key : String) (v : Nat)
    (hd : SyncRow) (tl : List SyncRow) (h : (hd.source_key == key) = false) :
    setCursor now key v (hd :: tl) = hd :: setCursor now key v tl := by
  have h' : ¬ hd.source_key = key := by simpa using h
  by_cases h2 : tl.any (fun r => r.source_key == key) <;>
    simp [setCursor, List.any_cons, h, h', h2]

theorem getCursor_cons_neg (key : String) (hd : SyncRow) (tl : List SyncRow)
    (h : (hd.source_key == key) = false) :
    getCursor key (hd :: tl) = getCursor key tl := by
  simp [getCursor, List.find?_cons_of_neg, h]

/-- Effect of `_set_cursor` on the value `_get_cursor` reads back: the
stored cursor is merged with the incoming one by `GREATEST` (an absent row
or NULL value is simply replaced). -/
theorem getCursor_setCursor_same (now : Nat) (key : String) (v : Nat) :
    ∀ st : List SyncRow,
      getCursor key (setCursor now key v st) = sqlGreatestNat (getCursor key st) (some v)
  | [] => by simp [setCursor, getCursor, sqlGreatestNat]
  | hd :: tl => by
      by_cases hhd : (hd.source_key == key) = true
      · have h' : hd.source_key = key := by simpa using hhd
        simp [setCursor, getCursor, List.any_cons, hhd, h', List.find?_cons_of_pos]
      · rw [setCursor_cons_neg now key v hd tl (by simpa using hhd),
          getCursor_cons_neg key hd _ (by simpa using hhd),
          getCursor_cons_neg key hd tl (by simpa using hhd)]
        exact getCursor_setCursor_same now key v tl

/-- `upsert_batch` touches only the `preprints` table, so folding it over
any list of batches leaves `sync_state` untouched. -/
theorem syncState_foldl_upsertBatch (now : Nat) :
    ∀ (bs : List (List Incoming)) (db : DB),
      (bs.foldl (fun d b => upsertBatch now b d) db).sync_state = db.sync_state
  | [], _ => rfl
  | b :: rest, db => by
      rw [List.foldl_cons, syncState_foldl_upsertBatch now rest (upsertBatch now b db)]
      rfl

/-- The `sync_state` table after a `sync_from_osf` run: `_set_cursor` with
the observed maximum published date when one was observed, untouched
otherwise. -/
theorem sync_from_osf_syncState (now : Nat) (subject : Option String)
    (batches : List (List Incoming)) (db : DB) :
    (sync_from_osf now subject batches db).sync_state =
      match maxPublished ((batches.flatten).map (fun o => o.date_published)) with
      | some m => setCursor now (sourceKey subject) m db.sync_state
      | none => db.sync_state := by
  unfold sync_from_osf initDb
  cases maxPublished ((batches.flatten).map (fun o => o.date_published)) with
  | none => exact syncState_foldl_upsertBatch now batches db
  | some m => simp [syncState_foldl_upsertBatch now batches db]

/-- C2.
Incremental sync cursor behaviour: (a) one run never decreases the stored
cursor for its source key; (b) when some published date was observed the
new cursor is the monotonic merge `GREATEST(stored, max observed)`; (c)
when no record (with a published date) was fetched the whole `sync_state`
table is untouched; (d) across any sequence of incremental runs the stored
cursor is non-decreasing. -/
theorem C2_cursor_monotone (now : Nat) (subject : Option String)
    (batches : List (List Incoming)) (db : DB) :
    cursorLe (getCursor (sourceKey subject) db.sync_state)
        (getCursor (sourceKey subject) (sync_from_osf now subject batches db).sync_state) ∧
    (∀ m, maxPublished ((batches.flatten).map (fun o => o.date_published)) = some m →
      getCursor (sourceKey subject) (sync_from_osf now subject batches db).sync_state =
        sqlGreatestNat (getCursor (sourceKey subject) db.sync_state) (some m)) ∧
    (maxPublished ((batches.flatten).map (fun o => o.date_published)) = none →
      (sync_from_osf now subject batches db).sync_state = db.sync_state) ∧
    (∀ runs : List (List (List Incoming)),
      cursorLe (getCursor (sourceKey subject) db.sync_state)
        (getCursor (sourceKey subject)
          ((runs.foldl (fun d bs => sync_from_osf now subject bs d) db).sync_state))) := by
  have hone : ∀ (bs : List (List Incoming)) (d : DB),
      cursorLe (getCursor (sourceKey subject) d.sync_state)
        (getCursor (sourceKey subject) (sync_from_osf now subject bs d).sync_state) := by
    intro bs d
    rw [sync_from_osf_syncState]
    cases hm : maxPublished ((bs.flatten).map (fun o => o.date_published)) with
    | none => exact cursorLe_refl _
    | some m =>
        simpa [getCursor_setCursor_same] using
          cursorLe_greatest (getCursor (sourceKey subject) d.sync_state) m
  refine ⟨hone batches db, ?_, ?_, ?_⟩
  · intro m hm
    rw [sync_from_osf_syncState, hm, getCursor_setCursor_same]
  · intro hm
    rw [sync_from_osf_syncState, hm]
  · intro runs
    induction runs generalizing db with
    | nil => exact cursorLe_refl _
    | cons bs rest ih =>
        exact cursorLe_trans (hone bs db) (by simpa using ih (sync_from_osf now subject bs db))

/-- C2 witness: one concrete run with a single record published at 7
against a store whose cursor for `osf:all` is 4: the cursor becomes
`max(4, 7) = 7` and it did not decrease. -/
theorem C2_cursor_monotone_witness :
    getCursor "osf:all"
        (sync_from_osf 50 none [[toIncoming row0]]
          ⟨[], [⟨"osf:all", some 4, 9⟩]⟩).sync_state = some 5 ∧
    cursorLe (some 4)
      (getCursor "osf:all"
        (sync_from_osf 50 none [[toIncoming row0]]
          ⟨[], [⟨"osf:all", some 4, 9⟩]⟩).sync_state) := by
  have h := C2_cursor_monotone 50 none [[toIncoming row0]] ⟨[], [⟨"osf:all", some 4, 9⟩]⟩
  refine ⟨?_, ?_⟩
  · have := h.2.1 5 (by decide)
    simpa [sqlGreatestNat, getCursor] using this
  · have := h.1
    simpa [getCursor] using this

/-- C8.
`sync_from_date_to_now` (the ad-hoc, explicitly-dated range sync) neither
reads nor writes the cursor store: after the run every row of `sync_state`
is exactly as before, for every start date, subject filter and fetched
batch list. -/
theorem C8_adhoc_sync_frame (now : Nat) (start_date : String)
    (subject : Option String) (batches : List (List Incoming)) (db : DB) :
    (sync_from_date_to_now now start_date subject batches db).sync_state = db.sync_state :=
  syncState_foldl_upsertBatch now batches db

/-! Batching lemmas (C5). -/

/-- The batcher loses and duplicates nothing: the concatenation of all
emitted batches is the accumulator followed by all page contents, in
order. -/
theorem batchLoop_flatten {α : Type} (bs : Nat) :
    ∀ (pages : List (List α)) (acc : List α),
      (batchLoop bs pages acc).flatten = acc ++ pages.flatten
  | [], acc => by
      by_cases h : acc.isEmpty <;>
        simp_all [batchLoop, List.isEmpty_iff]
  | p :: rest, acc => by
      simp only [batchLoop]
      by_cases h : bs ≤ (acc ++ p).length
      · rw [if_pos h]
        simp only [List.flatten_cons, batchLoop_flatten bs rest]
        rw [← List.append_assoc, List.take_append_drop]
        simp
      · rw [if_neg h, batchLoop_flatten bs rest]
        simp

/-- When every page holds at most `bs` records (and `bs > 0`), every
batch emitted from an accumulator shorter than `bs` holds at most `bs`
records. -/
theorem batchLoop_length_le {α : Type} (bs : Nat) :
    ∀ (pages : List (List α)) (acc : List α),
      (∀ p ∈ pages, p.length ≤ bs) → acc.length < bs →
      ∀ b ∈ batchLoop bs pages acc, b.length ≤ bs
  | [], acc => by
      intro _ hacc b hb
      by_cases h : acc.isEmpty <;> simp_all [batchLoop]
      omega
  | p :: rest, acc => by
      intro hpages hacc b hb
      simp only [batchLoop] at hb
      have hp : p.length ≤ bs := hpages p (by simp)
      have hrest : ∀ q ∈ rest, q.length ≤ bs := fun q hq => hpages q (by simp [hq])
      by_cases h : bs ≤ (acc ++ p).length
      · rw [if_pos h] at hb
        rcases List.mem_cons.mp hb with hb1 | hb2
        · subst hb1
          simp [List.length_take]
        · refine batchLoop_length_le bs rest _ hrest ?_ b hb2
          simp only [List.length_drop, List.length_append] at *
          omega
      · rw [if_neg h] at hb
        refine batchLoop_length_le bs rest _ hrest ?_ b hb
        omega

/-- C5.
The claim: every emitted batch contains at most batchSize records and any
remainder is flushed as a final *partial* batch.  Refuted: the loop emits
at most one batch per fetched page, so the accumulator can hold more than
batchSize records at exhaustion, and the final flush emits ALL of them as
one batch.  One page of 21 records with batchSize 10 yields batches of
10 and 11 — the final batch exceeds batchSize. -/
theorem C5_counterexample :
    (iter_preprints_batches 10 [List.replicate 21 (0 : Nat)]).map List.length = [10, 11] ∧
    ¬ (∀ b ∈ iter_preprints_batches 10 [List.replicate 21 (0 : Nat)], b.length ≤ 10) := by
  decide

/-- C5 (amended).
The batcher loop: (a) the concatenation of all emitted batches equals the
fetched record sequence in order; (b) provided every server page holds at
most batchSize records (the incremental fetch requests pages of at most
100, so any batchSize ≥ 100 qualifies), every emitted batch holds at most
batchSize records — without that proviso the final flush may exceed
batchSize; (c) a fetch spanning pages of 100 and 40 records with
batchSize ≥ 140 emits exactly one batch, of 140. -/
theorem C5_batching {α : Type} (bs : Nat) (pages : List (List α)) :
    (iter_preprints_batches bs pages).flatten = pages.flatten ∧
    (0 < bs → (∀ p ∈ pages, p.length ≤ bs) →
      ∀ b ∈ iter_preprints_batches bs pages, b.length ≤ bs) ∧
    (∀ p1 p2 : List α, p1.length = 100 → p2.length = 40 → 140 ≤ bs →
      (iter_preprints_batches bs [p1, p2]).map List.length = [140]) := by
  refine ⟨by simpa [iter_preprints_batches] using batchLoop_flatten bs pages [], ?_, ?_⟩
  · intro h0 hpages b hb
    exact batchLoop_length_le bs pages [] hpages (by simpa using h0) b hb
  · intro p1 p2 h1 h2 hbs
    have hc1 : ¬ bs ≤ (([] : List α) ++ p1).length := by simp [h1]; omega
    have hlen : (([] : List α) ++ p1 ++ p2).length = 140 := by simp [h1, h2]
    simp only [iter_preprints_batches, batchLoop, if_neg hc1]
    by_cases hbs' : bs ≤ 140
    · have hb140 : bs = 140 := le_antisymm hbs' hbs
      subst hb140
      rw [if_pos (by rw [hlen])]
      have hdrop : (([] : List α) ++ p1 ++ p2).drop 140 = [] :=
        List.drop_eq_nil_of_le (by rw [hlen])
      simp [hdrop, List.length_take, h1, h2]
    · rw [if_neg (by rw [hlen]; omega)]
      have hp1 : p1 ≠ [] := by
        intro he; rw [he] at h1; simp at h1
      rw [if_neg (by simp [List.isEmpty_iff]; intro hp1' _; exact hp1 hp1')]
      simp [h1, h2]

/-- C5 witness: the amended theorem at the concrete 100-record and
40-record pages with batchSize 140 — exactly one batch of 140 — and at
the page list itself for the order-preserving concatenation. -/
theorem C5_batching_witness :
    (List.replicate 100 (0 : Nat)).length = 100 ∧ 140 ≤ 140 ∧
    (iter_preprints_batches 140
        [List.replicate 100 (0 : Nat), List.replicate 40 0]).map List.length = [140] :=
  ⟨by simp, le_refl 140,
    (C5_batching 140 ([] : List (List Nat))).2.2 (List.replicate 100 0)
      (List.replicate 40 0) (by simp) (by simp) (le_refl 140)⟩

/-! Download-policy theorem (C6). -/

/-- C6.
When no download URL resolves for a record's primary file, or the
resolved content type (or the filename heuristic when the type is absent)
is neither PDF nor DOCX (the one supported convertible format), the
pipeline deletes the record from `preprints`, reports `deleted` with no
path, and writes no file to disk (the file set is untouched; only the
per-record directory may have been created). -/
theorem C6_unactionable_deleted (osf_id provider_id : String)
    (url ctype name : Option String) (convOk : Bool) (root : String) (st : FsDb)
    (h : pyFalsyStr url = true ∨
      (isPdfType ctype name = false ∧ isDocxType ctype name = false)) :
    (ensure_pdf_available_or_delete osf_id provider_id url ctype name convOk root st).1
        = (.deleted, none) ∧
    ((ensure_pdf_available_or_delete osf_id provider_id url ctype name convOk root st).2).files
        = st.files ∧
    (∀ r ∈ ((ensure_pdf_available_or_delete osf_id provider_id url ctype name convOk
        root st).2).preprints, r.osf_id ≠ osf_id) ∧
    (∀ r ∈ st.preprints, r.osf_id ≠ osf_id →
      r ∈ ((ensure_pdf_available_or_delete osf_id provider_id url ctype name convOk
        root st).2).preprints) := by
  by_cases hu : pyFalsyStr url = true
  · refine ⟨?_, ?_, ?_, ?_⟩ <;>
      · simp [ensure_pdf_available_or_delete, hu, deletePreprint, List.mem_filter]
        try tauto
  · rcases h with hu' | ⟨hp, hd⟩
    · exact absurd hu' hu
    · refine ⟨?_, ?_, ?_, ?_⟩ <;>
        · simp [ensure_pdf_available_or_delete, hu, hp, hd, deletePreprint,
            List.mem_filter]
          try tauto

/-- C6 witness: a record whose primary-file relation resolves to no URL,
over a store holding just that record: result `deleted`, record gone,
files untouched. -/
theorem C6_unactionable_deleted_witness :
    pyFalsyStr none = true ∧
    (ensure_pdf_available_or_delete "abc12" "osf" none none none false
        "/data/preprints" ⟨[row0], [], []⟩).1 = (.deleted, none) ∧
    (∀ r ∈ ((ensure_pdf_available_or_delete "abc12" "osf" none none none false
        "/data/preprints" ⟨[row0], [], []⟩).2).preprints, r.osf_id ≠ "abc12") :=
  ⟨rfl,
    (C6_unactionable_deleted "abc12" "osf" none none none false "/data/preprints"
      ⟨[row0], [], []⟩ (Or.inl rfl)).1,
    (C6_unactionable_deleted "abc12" "osf" none none none false "/data/preprints"
      ⟨[row0], [], []⟩ (Or.inl rfl)).2.2.1⟩

/-! Retry-loop theorems (C7). -/

theorem fetchPageLoop_transient_forever (attempts : Nat → AttemptOutcome)
    (h : ∀ i, attempts i = .transient) :
    ∀ fuel i b, fetchPageLoop attempts fuel i b = none := by
  intro fuel
  induction fuel with
  | zero => intro i b; rfl
  | succ n ih => intro i b; simp [fetchPageLoop, h i, ih]

/-- C7.
The claim: every transient network error is retried with BOUNDED backoff,
so an all-failing page fetch terminates after a bounded number of
attempts with a terminal failure.  Refuted: the `while True` loop of
`_fetch_page` catches timeout/connection errors and retries with no
attempt bound, so on an attempt stream that always fails transiently the
fetch never terminates — no amount of fuel makes it return. -/
theorem C7_counterexample :
    ¬ ∃ fuel r, fetchPage allTransient fuel = some r := by
  rintro ⟨fuel, r, hr⟩
  rw [fetchPage, fetchPageLoop_transient_forever allTransient (fun _ => rfl)] at hr
  exact Option.noConfusion hr

theorem fetchPageLoop_after_transients (attempts : Nat → AttemptOutcome) :
    ∀ n i b fuel, (∀ j, j < n → attempts (i + j) = .transient) → n < fuel →
      (∀ p, attempts (i + n) = .ok p →
        fetchPageLoop attempts fuel i b = some (.success p, sleepsFrom b n)) ∧
      (attempts (i + n) = .httpError →
        fetchPageLoop attempts fuel i b = some (.httpFailure, sleepsFrom b n)) := by
  intro n
  induction n with
  | zero =>
      intro i b fuel _ hf
      obtain ⟨f, rfl⟩ : ∃ f, fuel = f + 1 := ⟨fuel - 1, by omega⟩
      constructor
      · intro p hp
        rw [Nat.add_zero] at hp
        simp [fetchPageLoop, hp, sleepsFrom]
      · intro hp
        rw [Nat.add_zero] at hp
        simp [fetchPageLoop, hp, sleepsFrom]
  | succ n ih =>
      intro i b fuel htr hf
      obtain ⟨f, rfl⟩ : ∃ f, fuel = f + 1 := ⟨fuel - 1, by omega⟩
      have h0 : attempts i = .transient := by simpa using htr 0 (by omega)
      have htr' : ∀ j, j < n → attempts (i + 1 + j) = .transient := by
        intro j hj
        have := htr (j + 1) (by omega)
        rwa [show i + (j + 1) = i + 1 + j by omega] at this
      have hrw : i + 1 + n = i + (n + 1) := by omega
      have ih' := ih (i + 1) (b * 2) f htr' (by omega)
      constructor
      · intro p hp
        have := ih'.1 p (by rw [hrw]; exact hp)
        simp [fetchPageLoop, h0, this, sleepsFrom]
      · intro hp
        have := ih'.2 (by rw [hrw]; exact hp)
        simp [fetchPageLoop, h0, this, sleepsFrom]

theorem sleepsFrom_eq (n : Nat) :
    ∀ b, sleepsFrom b n = (List.range n).map (fun k => min (b * 2 ^ k) 60) := by
  induction n with
  | zero => intro b; simp [sleepsFrom]
  | succ n ih =>
      intro b
      rw [List.range_succ_eq_map, List.map_cons, List.map_map]
      have harg : (fun k => min (b * 2 ^ k) 60) ∘ (fun k => k + 1)
          = fun k => min (b * 2 * 2 ^ k) 60 := by
        funext k
        simp only [Function.comp]
        congr 1
        rw [pow_succ]
        ring
      rw [harg, ← ih (b * 2)]
      simp [sleepsFrom]

/-- C7 (amended).
`_fetch_page` retries timeout/connection errors indefinitely — there is
no attempt bound and no jitter; the sleep before the k-th retry is
`min(2·2^k, 60)` seconds (exponential backoff from 2s capped at 60s).
An all-transient stream never terminates; the loop ends only at the first
non-transient attempt: a success returns the page and a rate-limit/5xx
surviving the session transport's bounded retries surfaces via
`raise_for_status` as an immediate uncaught failure of the fetch. -/
theorem C7_retry_behaviour (attempts : Nat → AttemptOutcome) :
    ((∀ i, attempts i = .transient) → ∀ fuel, fetchPage attempts fuel = none) ∧
    (∀ n fuel, (∀ j, j < n → attempts j = .transient) → n < fuel →
      (∀ p, attempts n = .ok p →
        fetchPage attempts fuel = some (.success p, sleepsFrom 2 n)) ∧
      (attempts n = .httpError →
        fetchPage attempts fuel = some (.httpFailure, sleepsFrom 2 n))) ∧
    (∀ n, sleepsFrom 2 n = (List.range n).map (fun k => min (2 * 2 ^ k) 60)) := by
  refine ⟨?_, ?_, fun n => sleepsFrom_eq n 2⟩
  · intro h fuel
    rw [fetchPage]
    exact fetchPageLoop_transient_forever attempts h fuel 0 2
  · intro n fuel htr hf
    have := fetchPageLoop_after_transients attempts n 0 2 fuel (by simpa using htr) hf
    simpa [fetchPage] using this

/-- C7 witness: two transient failures then an HTTP status error, with
fuel 3: the fetch terminates with the HTTP failure after sleeping 2 then
4 seconds. -/
theorem C7_retry_behaviour_witness :
    fetchPage twoTransientThenHttp 3 = some (.httpFailure, [2, 4]) := by
  have h := (C7_retry_behaviour twoTransientThenHttp).2.1 2 3
    (by intro j hj; simp [twoTransientThenHttp, hj]) (by omega)
  have h2 := h.2 (by simp [twoTransientThenHttp])
  simpa [sleepsFrom] using h2

/-! Missing-name and call-arity theorems (C9, C10). -/

/-- C9.
For every record that is published with its download lane unset (so the
SELECT of `download_single_pdf` returns it), the work item stops with an
unresolved-name failure on `download_pdf_via_raw` — a name imported from
the pdf module but defined nowhere in the source — before any download or
store mutation (the state is returned unchanged); the only defined
download entry point in that module is `ensure_pdf_available_or_delete`. -/
theorem C9_download_name_unresolved (now : Nat) (id : String) (st : FsDb) (row : Row)
    (h : selectNeedsDownload id st.preprints = some row) :
    download_single_pdf now id st = (.nameError "download_pdf_via_raw", st) ∧
    tasksPdfImports.contains "download_pdf_via_raw" = true ∧
    pdfModuleDefs.contains "download_pdf_via_raw" = false ∧
    pdfModuleDefs.contains "ensure_pdf_available_or_delete" = true := by
  refine ⟨?_, by decide, by decide, by decide⟩
  simp [download_single_pdf, h, downloadPdfViaRawDef]

/-- C9 witness: a store holding one published, not-yet-downloaded row:
the work item reports the unresolved name and leaves the state
untouched. -/
theorem C9_download_name_unresolved_witness :
    selectNeedsDownload "abc12" [rowNeed] = some rowNeed ∧
    download_single_pdf 50 "abc12" ⟨[rowNeed], [], []⟩
      = (.nameError "download_pdf_via_raw", ⟨[rowNeed], [], []⟩) :=
  ⟨by decide,
    (C9_download_name_unresolved 50 "abc12" ⟨[rowNeed], [], []⟩ rowNeed (by decide)).1⟩

/-- C10.
`grobid_single` calls `process_pdf_to_tei` with one positional argument
(`osf_id`) while the callee requires two (`provider_id`, `osf_id`), so
for a record passing the skip checks (download lane set, extraction lane
unset) the call raises a type error; in every case the state — and hence
the extraction lane of every row — is unchanged, so the lane is never set
through this path. -/
theorem C10_grobid_arity (now : Nat) (id : String) (svc : Bool) (st : FsDb) :
    grobidSingleCallArgs.length = 1 ∧
    processPdfToTeiParams.length = 2 ∧
    (grobid_single now id svc st).2 = st ∧
    (∀ row, st.preprints.find? (fun r => r.osf_id == id) = some row →
      pyTruthyBool row.pdf_downloaded = true →
      pyTruthyBool row.tei_generated = false →
      grobid_single now id svc st = (.typeError, st)) := by
  refine ⟨rfl, rfl, ?_, ?_⟩
  · unfold grobid_single
    cases hfind : st.preprints.find? (fun r => r.osf_id == id) with
    | none => rfl
    | some row =>
        by_cases h1 : pyTruthyBool row.pdf_downloaded <;>
          by_cases h2 : pyTruthyBool row.tei_generated <;>
            simp [h1, h2, grobidSingleCallArgs, processPdfToTeiParams]
  · intro row hfind h1 h2
    simp [grobid_single, hfind, h1, h2, grobidSingleCallArgs, processPdfToTeiParams]

/-- C10 witness: a store holding one downloaded, not-yet-extracted row:
the work item reports the type error and the state is unchanged. -/
theorem C10_grobid_arity_witness :
    (List.find? (fun r => r.osf_id == "abc12") [rowNeedsTei] = some rowNeedsTei) ∧
    grobid_single 50 "abc12" true ⟨[rowNeedsTei], [], []⟩
      = (.typeError, ⟨[rowNeedsTei], [], []⟩) :=
  ⟨by decide,
    (C10_grobid_arity 50 "abc12" true ⟨[rowNeedsTei], [], []⟩).2.2.2 rowNeedsTei
      (by decide) (by decide) (by decide)⟩

end OsfSync
